import Mathlib

/-!
Shallow embedding of the COSC264 file-transfer client and server
(src/client/client.py, src/server/server.py).

Bytes are modelled as `Nat` values below 256, byte strings as `List Nat`.
Python strings are modelled as lists of Unicode code points (`List Nat`).
Network reads (`socket.recv`) are modelled by the `NetRead` oracle type: a
read either delivers a byte string, times out, or fails with an I/O error.
`exit(1)` sites are modelled as explicit outcome constructors.
-/

namespace FileServer

/-- Protocol constants shared by client.py and server.py. -/
def MAGICNO : Nat := 0x497E

def REQUEST_TYPE : Nat := 1

def RESPONSE_TYPE : Nat := 2

def MIN_FILENAME_LEN : Nat := 1

def MAX_FILENAME_LEN : Nat := 1024

def REQUEST_HEADER_LEN : Nat := 5

def RESPONSE_HEADER_LEN : Nat := 8

/-- Big-endian byte list of `v` using exactly `n` bytes (the digit list of
`v % 256^n`); the encoding used by Python's `int.to_bytes(n, 'big')` when
`v < 256^n`. -/
def natToBytesBE : Nat → Nat → List Nat
  | 0, _ => []
  | n + 1, v => natToBytesBE n (v / 256) ++ [v % 256]

/-- Python's `v.to_bytes(n, byteorder='big')`: raises `OverflowError`
(modelled as `none`) when `v` does not fit in `n` bytes. -/
def int_to_bytes (n v : Nat) : Option (List Nat) :=
  if v < 256 ^ n then some (natToBytesBE n v) else none

/-- Python's `int.from_bytes(bs, byteorder='big')` (0 on the empty string). -/
def from_bytes (bs : List Nat) : Nat :=
  bs.foldl (fun acc b => acc * 256 + b) 0

/-- Python's `chr`: the character whose code point is `b`; strings being
lists of code points, a byte decodes to the code point of the same value. -/
def pychr (b : Nat) : Nat := b

/-- UTF-8 encoding of one code point, as produced by Python's
`str.encode()`. -/
def utf8EncodeChar (c : Nat) : List Nat :=
  if c < 128 then [c]
  else if c < 2048 then [192 + c / 64, 128 + c % 64]
  else if c < 65536 then [224 + c / 4096, 128 + c / 64 % 64, 128 + c % 64]
  else [240 + c / 262144, 128 + c / 4096 % 64, 128 + c / 64 % 64, 128 + c % 64]

/-- UTF-8 encoding of a string (`filename.encode()` in client.py). -/
def utf8Encode (s : List Nat) : List Nat :=
  (s.map utf8EncodeChar).flatten

/-- Outcome of one `socket.recv(n)` call. -/
inductive NetRead where
  | bytes (bs : List Nat)
  | timeout
  | ioError
  deriving DecidableEq

/-- client.py `construct_request`: MagicNo (2 bytes BE), Type byte,
FilenameLen (2 bytes BE of the UTF-8 byte count), then the UTF-8 bytes.
`none` models an uncaught `OverflowError` from `to_bytes`. -/
def construct_request (filename : List Nat) : Option (List Nat) :=
  match int_to_bytes 2 MAGICNO, int_to_bytes 2 (utf8Encode filename).length with
  | some m, some l => some (m ++ [REQUEST_TYPE] ++ l ++ utf8Encode filename)
  | _, _ => none

/-- server.py `is_valid_header`: `some false` when a check fails (the server
logs and drops the connection), `some true` when the header is accepted,
`none` when `header[2]` raises an uncaught `IndexError` (header of length
1 or 2 whose bytes happen to pass the magic-number check). -/
def is_valid_header (header : List Nat) : Option Bool :=
  if header.length = 0 then some false
  else if from_bytes (header.take 2) ≠ MAGICNO then some false
  else match header.get? 2 with
    | none => none
    | some t =>
      if t ≠ REQUEST_TYPE then some false
      else if from_bytes ((header.drop 3).take 2) < MIN_FILENAME_LEN ∨
          MAX_FILENAME_LEN < from_bytes ((header.drop 3).take 2) then some false
      else some true

/-- Result of server.py `get_filename`. -/
inductive GetFilenameResult where
  | exited
  | malformed
  | filename (cs : List Nat)
  deriving DecidableEq

/-- server.py `get_filename`: reads the declared length from `header[3:]`,
asks `recv` for one byte more than that, exits the process on timeout or
I/O error, returns `malformed` (Python `None`) when the delivered count
differs from the declared count, and otherwise decodes byte-per-character
with `chr`. `recv n` is the outcome of `conn.recv(n)`. -/
def get_filename (header : List Nat) (recv : Nat → NetRead) : GetFilenameResult :=
  match recv (from_bytes (header.drop 3) + 1) with
  | NetRead.timeout => GetFilenameResult.exited
  | NetRead.ioError => GetFilenameResult.exited
  | NetRead.bytes fb =>
    if fb.length ≠ from_bytes (header.drop 3) then GetFilenameResult.malformed
    else GetFilenameResult.filename (fb.map pychr)

/-- server.py `construct_response`: MagicNo, Type, StatusCode (1 iff the
file data is non-empty), DataLen (4 bytes BE), then the data. `none`
models an uncaught `OverflowError` for data of 2^32 bytes or more. -/
def construct_response (file_data : List Nat) : Option (List Nat) :=
  match int_to_bytes 2 MAGICNO, int_to_bytes 4 file_data.length with
  | some m, some l =>
    some (m ++ [RESPONSE_TYPE] ++ [if file_data.length = 0 then 0 else 1] ++ l ++ file_data)
  | _, _ => none

/-- How one accepted server connection ends.  `processExit` is an `exit(1)`
reached while handling the connection (it kills the whole server process);
`crash` is an uncaught exception; `dropped` means the connection was
abandoned (`continue`) and the accept loop goes on; `responded` means a
FileResponse was handed to `sendall`. -/
inductive ConnOutcome where
  | processExit
  | crash
  | dropped
  | responded (resp : List Nat)
  deriving DecidableEq

/-- server.py `main`, body of the `with conn:` block for one accepted
connection.  `headerRead` is the outcome of `get_header`'s `conn.recv(5)`;
`recv` answers `get_filename`'s `conn.recv(filename_len+1)`; `fs` is the
local filesystem: `get_file_data` yields the file's bytes, or an empty
byte string when the file cannot be opened (`fs` returns `none`).  The
second component records whether the filename payload read was attempted. -/
def handle_connection (headerRead : NetRead) (recv : Nat → NetRead)
    (fs : List Nat → Option (List Nat)) : ConnOutcome × Bool :=
  match headerRead with
  | NetRead.timeout => (ConnOutcome.processExit, false)
  | NetRead.ioError => (ConnOutcome.processExit, false)
  | NetRead.bytes h =>
    match is_valid_header h with
    | none => (ConnOutcome.crash, false)
    | some false => (ConnOutcome.dropped, false)
    | some true =>
      match get_filename h recv with
      | GetFilenameResult.exited => (ConnOutcome.processExit, true)
      | GetFilenameResult.malformed => (ConnOutcome.dropped, true)
      | GetFilenameResult.filename fn =>
        match construct_response ((fs fn).getD []) with
        | none => (ConnOutcome.crash, true)
        | some resp => (ConnOutcome.responded resp, true)

/-- Why the server's accept loop stopped consuming the supplied
connections: an `exit(1)` (`exited`), an uncaught exception (`crashed`),
or it handled them all and would block in `accept` (`ranOut`). -/
inductive LoopEnd where
  | exited
  | crashed
  | ranOut
  deriving DecidableEq

/-- server.py `main`'s `while True` accept loop over a list of accepted
connections (each with its header-read outcome, filename-read oracle and
filesystem view): the outcomes of the connections actually handled,
paired with how the loop stopped. -/
def server_run :
    List (NetRead × (Nat → NetRead) × (List Nat → Option (List Nat))) →
      List ConnOutcome × LoopEnd
  | [] => ([], LoopEnd.ranOut)
  | c :: rest =>
    match handle_connection c.1 c.2.1 c.2.2 with
    | (ConnOutcome.processExit, _) => ([ConnOutcome.processExit], LoopEnd.exited)
    | (ConnOutcome.crash, _) => ([ConnOutcome.crash], LoopEnd.crashed)
    | (o, _) =>
      ((o :: (server_run rest).1), (server_run rest).2)

/-- Result of client.py `validate_header`: `ok` when every check passes,
`errExit` when the client prints an error and exits cleanly, `crash` when
`header[2]` or `header[3]` raises an uncaught `IndexError`. -/
inductive ClientHeaderCheck where
  | ok
  | errExit
  | crash
  deriving DecidableEq

/-- client.py `validate_header`. -/
def validate_header (header : List Nat) : ClientHeaderCheck :=
  if header.length = 0 then ClientHeaderCheck.errExit
  else if from_bytes (header.take 2) ≠ MAGICNO then ClientHeaderCheck.errExit
  else match header.get? 2 with
    | none => ClientHeaderCheck.crash
    | some t =>
      if t ≠ RESPONSE_TYPE then ClientHeaderCheck.errExit
      else match header.get? 3 with
        | none => ClientHeaderCheck.crash
        | some s =>
          if s = 0 ∨ s = 1 then ClientHeaderCheck.ok
          else ClientHeaderCheck.errExit

/-- How the client's header phase ends: a printed error plus `exit(1)`
(`fatalError`), an uncaught exception (`crash`), a clean StatusCode-0 exit
(`notFound`), or entry to the transfer phase with the declared DataLen. -/
inductive ClientOutcome where
  | fatalError
  | crash
  | notFound
  | transfer (dataLen : Nat)
  deriving DecidableEq

/-- client.py `main` from `get_header` up to the `save_file` call:
`get_header` exits on timeout or I/O error, then `validate_header`, then
`check_status_code`, then the transfer phase starts with
`data_length = int.from_bytes(header[4:8])`. -/
def client_after_header (headerRead : NetRead) : ClientOutcome :=
  match headerRead with
  | NetRead.timeout => ClientOutcome.fatalError
  | NetRead.ioError => ClientOutcome.fatalError
  | NetRead.bytes h =>
    match validate_header h with
    | ClientHeaderCheck.errExit => ClientOutcome.fatalError
    | ClientHeaderCheck.crash => ClientOutcome.crash
    | ClientHeaderCheck.ok =>
      if h.get? 3 = some 0 then ClientOutcome.notFound
      else ClientOutcome.transfer (from_bytes ((h.drop 4).take 4))

/-- client.py header phase with the `soc.recv(8)` call explicit: the
header bytes are whatever `recv RESPONSE_HEADER_LEN` delivers. -/
def client_step (recv : Nat → NetRead) : ClientOutcome :=
  client_after_header (recv RESPONSE_HEADER_LEN)

/-- How client.py `save_file` ends.  On `mismatch` and `readFail` the
client prints an error, removes the destination file and exits;
on `success` the file is kept and the byte total returned. -/
inductive SaveOutcome where
  | success (totalBytes : Nat)
  | mismatch (totalBytes : Nat)
  | readFail (totalBytes : Nat)
  deriving DecidableEq

/-- Whether client.py deletes the destination file in this outcome
(`remove_file` runs on the mismatch and read-failure paths only). -/
def save_file_removed : SaveOutcome → Bool
  | SaveOutcome.success _ => false
  | SaveOutcome.mismatch _ => true
  | SaveOutcome.readFail _ => true

/-- client.py `save_file`'s receive loop: `stream` lists the successive
results of `receive_data_block` (`soc.recv(4096)`); once the list is
exhausted the peer has closed the stream and `recv` yields the empty byte
string.  The loop stops at the first empty block, then the accumulated
total is compared with the declared DataLen. -/
def save_loop (data_length : Nat) : List NetRead → Nat → SaveOutcome
  | [], total =>
    if data_length ≠ total then SaveOutcome.mismatch total else SaveOutcome.success total
  | r :: rest, total =>
    match r with
    | NetRead.timeout => SaveOutcome.readFail total
    | NetRead.ioError => SaveOutcome.readFail total
    | NetRead.bytes b =>
      if b.length = 0 then
        if data_length ≠ total then SaveOutcome.mismatch total else SaveOutcome.success total
      else save_loop data_length rest (total + b.length)

/-- client.py `save_file` for a declared DataLen and a stream of received
blocks (the file-creation step is assumed to succeed; write failures are
not modelled). -/
def save_file (data_length : Nat) (stream : List NetRead) : SaveOutcome :=
  save_loop data_length stream 0

/-- Result of client.py `arguemnt_check`. -/
inductive ArgCheckResult where
  | usageExit
  | ipExit
  | portExit
  | fileExit
  | ok (port : Nat)
  deriving DecidableEq

/-- client.py `arguemnt_check`: argument count, address resolution, port
digits-and-range check, then the destination-file check: refuse
(`fileExit`) exactly when `os.path.isfile` holds and `open(filename)` for
reading succeeds; when `open` raises, the `except: pass` arm keeps going. -/
def arguemnt_check (argc : Nat) (ipResolves : Bool) (portIsDigits : Bool)
    (portVal : Nat) (isFile : Bool) (canOpenRead : Bool) : ArgCheckResult :=
  if argc ≠ 4 then ArgCheckResult.usageExit
  else if ipResolves = false then ArgCheckResult.ipExit
  else if portIsDigits = false ∨ portVal < 1024 ∨ 64000 < portVal then ArgCheckResult.portExit
  else if isFile then
    if canOpenRead then ArgCheckResult.fileExit
    else ArgCheckResult.ok portVal
  else ArgCheckResult.ok portVal

/-! ## Helper lemmas about the byte codec -/

theorem natToBytesBE_length (n v : Nat) : (natToBytesBE n v).length = n := by
  induction n generalizing v with
  | zero => rfl
  | succ n ih => simp [natToBytesBE, ih]

theorem from_bytes_append_byte (xs : List Nat) (b : Nat) :
    from_bytes (xs ++ [b]) = from_bytes xs * 256 + b := by
  simp [from_bytes, List.foldl_append]

theorem from_bytes_natToBytesBE (n v : Nat) (h : v < 256 ^ n) :
    from_bytes (natToBytesBE n v) = v := by
  induction n generalizing v with
  | zero =>
    have hv : v = 0 := by simpa using h
    subst hv; rfl
  | succ n ih =>
    have hdiv : v / 256 < 256 ^ n := by
      rw [Nat.div_lt_iff_lt_mul (by norm_num)]
      calc v < 256 ^ (n + 1) := h
        _ = 256 ^ n * 256 := by rw [pow_succ]
    rw [natToBytesBE, from_bytes_append_byte, ih _ hdiv]
    omega

/-! ## Claim theorems -/

/-- C5: server request-header validation rejects FilenameLen 0 and 1025 and
accepts FilenameLen 1 and 1024, the magic number and type byte being valid
(1025 = 0x0401, 1024 = 0x0400 in the two big-endian length bytes). -/
theorem c5_filename_len_boundaries :
    is_valid_header [0x49, 0x7E, 1, 0, 0] = some false ∧
    is_valid_header [0x49, 0x7E, 1, 4, 1] = some false ∧
    is_valid_header [0x49, 0x7E, 1, 0, 1] = some true ∧
    is_valid_header [0x49, 0x7E, 1, 4, 0] = some true := by
  decide

/-- C4: for data below 2^32 bytes (`to_bytes(4)` raises beyond that), the
encoded FileResponse has StatusCode 1 iff the data is non-empty and 0
otherwise, its DataLen bytes decode to the exact data length (hence 0
whenever StatusCode is 0), and the bytes after the 8-byte header are
exactly the data. -/
theorem c4_response_encoding (data : List Nat) (hlen : data.length < 4294967296) :
    ∃ r, construct_response data = some r ∧
      r.length = RESPONSE_HEADER_LEN + data.length ∧
      r.get? 3 = some (if data.length = 0 then 0 else 1) ∧
      (data = [] → r.get? 3 = some 0) ∧
      (data ≠ [] → r.get? 3 = some 1) ∧
      from_bytes ((r.drop 4).take 4) = data.length ∧
      (r.get? 3 = some 0 → from_bytes ((r.drop 4).take 4) = 0) ∧
      r.drop RESPONSE_HEADER_LEN = data := by
  have h4 : (256 : Nat) ^ 4 = 4294967296 := by norm_num
  have hm : int_to_bytes 2 MAGICNO = some [73, 126] := by decide
  have hl : int_to_bytes 4 data.length = some (natToBytesBE 4 data.length) := by
    rw [int_to_bytes, if_pos (h4 ▸ hlen)]
  have hr : construct_response data =
      some (([73, 126, 2, if data.length = 0 then 0 else 1] ++
        natToBytesBE 4 data.length) ++ data) := by
    simp [construct_response, RESPONSE_TYPE, hm, hl]
  set sc := (if data.length = 0 then 0 else 1 : Nat) with hsc
  set nb := natToBytesBE 4 data.length with hnb
  have hnblen : nb.length = 4 := natToBytesBE_length 4 _
  have hget : (([73, 126, 2, sc] ++ nb) ++ data).get? 3 = some sc := by
    rw [List.get?_append (by simp [hnblen]), List.get?_append (by simp)]
    rfl
  have hdl : from_bytes ((((([73, 126, 2, sc] ++ nb) ++ data)).drop 4).take 4) =
      data.length := by
    rw [List.append_assoc, List.drop_left' (by simp), List.take_left' hnblen]
    exact from_bytes_natToBytesBE 4 _ (h4 ▸ hlen)
  refine ⟨_, hr, ?_, hget, ?_, ?_, hdl, ?_, ?_⟩
  · simp only [List.length_append, List.length_cons, List.length_nil, hnblen,
      RESPONSE_HEADER_LEN]
  · intro hd
    rw [hget, hsc]
    simp [hd]
  · intro hd
    have hz : data.length ≠ 0 := by simpa [List.length_eq_zero] using hd
    rw [hget, hsc]
    simp [hz]
  · intro h0
    rw [hget] at h0
    rw [hdl]
    by_cases hz : data.length = 0
    · exact hz
    · rw [hsc, if_neg hz] at h0
      simp at h0
  · exact List.drop_left' (by simp [RESPONSE_HEADER_LEN, hnblen])

/-- Witness for C4 at the concrete data `[7]`. -/
theorem c4_response_encoding_witness :
    ∃ r, construct_response [7] = some r ∧
      r.length = RESPONSE_HEADER_LEN + ([7] : List Nat).length ∧
      r.get? 3 = some (if ([7] : List Nat).length = 0 then 0 else 1) ∧
      (([7] : List Nat) = [] → r.get? 3 = some 0) ∧
      (([7] : List Nat) ≠ [] → r.get? 3 = some 1) ∧
      from_bytes ((r.drop 4).take 4) = ([7] : List Nat).length ∧
      (r.get? 3 = some 0 → from_bytes ((r.drop 4).take 4) = 0) ∧
      r.drop RESPONSE_HEADER_LEN = [7] :=
  c4_response_encoding [7] (by norm_num)

/-- The receive loop of `save_file` over a stream of non-empty delivered
blocks followed by end-of-stream: it accumulates the total block length and
then compares it with the declared DataLen. -/
theorem save_loop_all_bytes (K : Nat) (blocks : List (List Nat)) (t : Nat)
    (hne : ∀ b ∈ blocks, b ≠ []) :
    save_loop K (blocks.map NetRead.bytes) t =
      if K ≠ t + (blocks.map List.length).sum then
        SaveOutcome.mismatch (t + (blocks.map List.length).sum)
      else SaveOutcome.success (t + (blocks.map List.length).sum) := by
  induction blocks generalizing t with
  | nil => simp [save_loop]
  | cons b bs ih =>
    have hb : b.length ≠ 0 := by
      simpa [List.length_eq_zero] using hne b (by simp)
    simp only [List.map_cons, save_loop]
    rw [if_neg hb, ih (t + b.length) (fun x hx => hne x (by simp [hx]))]
    simp only [List.map_cons, List.sum_cons, Nat.add_assoc]

/-- C3: if the response header declares DataLen `K` and the stream ends
(peer closes) after delivering blocks totalling fewer than `K` bytes, the
client ends in the mismatch outcome — an error is reported and the
partially written destination file is removed. -/
theorem c3_under_delivery_removes_file (K : Nat) (blocks : List (List Nat))
    (hne : ∀ b ∈ blocks, b ≠ [])
    (hlt : (blocks.map List.length).sum < K) :
    save_file K (blocks.map NetRead.bytes) =
      SaveOutcome.mismatch ((blocks.map List.length).sum) ∧
    save_file_removed (save_file K (blocks.map NetRead.bytes)) = true := by
  have hKne : K ≠ 0 + (blocks.map List.length).sum := by omega
  rw [save_file, save_loop_all_bytes K blocks 0 hne, if_pos hKne]
  exact ⟨by rw [Nat.zero_add], rfl⟩

/-- Witness for C3: DataLen 5 declared, a single 2-byte block delivered. -/
theorem c3_under_delivery_witness :
    save_file 5 ([[1, 2]].map NetRead.bytes) = SaveOutcome.mismatch 2 ∧
    save_file_removed (save_file 5 ([[1, 2]].map NetRead.bytes)) = true := by
  have h := c3_under_delivery_removes_file 5 [[1, 2]] (by decide) (by decide)
  simpa using h

/-- C10: the symmetric case — blocks totalling more than the declared
DataLen `K` also end in the mismatch outcome with the destination file
removed; over-delivery is never accepted as success. -/
theorem c10_over_delivery_removes_file (K : Nat) (blocks : List (List Nat))
    (hne : ∀ b ∈ blocks, b ≠ [])
    (hgt : K < (blocks.map List.length).sum) :
    save_file K (blocks.map NetRead.bytes) =
      SaveOutcome.mismatch ((blocks.map List.length).sum) ∧
    save_file_removed (save_file K (blocks.map NetRead.bytes)) = true := by
  have hKne : K ≠ 0 + (blocks.map List.length).sum := by omega
  rw [save_file, save_loop_all_bytes K blocks 0 hne, if_pos hKne]
  exact ⟨by rw [Nat.zero_add], rfl⟩

/-- Witness for C10: DataLen 1 declared, a single 2-byte block delivered. -/
theorem c10_over_delivery_witness :
    save_file 1 ([[1, 2]].map NetRead.bytes) = SaveOutcome.mismatch 2 ∧
    save_file_removed (save_file 1 ([[1, 2]].map NetRead.bytes)) = true := by
  have h := c10_over_delivery_removes_file 1 [[1, 2]] (by decide) (by decide)
  simpa using h

/-- C9: with the argument count, address resolution and port checks all
passing, the client refuses to proceed (`fileExit`) exactly when the
destination filename names an existing file that can be opened for
reading; an existing but unreadable file is allowed to be overwritten. -/
theorem c9_overwrite_refusal (argc : Nat) (ipResolves portIsDigits : Bool)
    (portVal : Nat) (isFile canOpenRead : Bool)
    (hargc : argc = 4) (hip : ipResolves = true) (hd : portIsDigits = true)
    (hlo : 1024 ≤ portVal) (hhi : portVal ≤ 64000) :
    (arguemnt_check argc ipResolves portIsDigits portVal isFile canOpenRead =
        ArgCheckResult.fileExit ↔ isFile = true ∧ canOpenRead = true) ∧
    (isFile = true → canOpenRead = false →
      arguemnt_check argc ipResolves portIsDigits portVal isFile canOpenRead =
        ArgCheckResult.ok portVal) := by
  subst hargc; subst hip; subst hd
  have h3 : ¬((true = false) ∨ portVal < 1024 ∨ 64000 < portVal) := by
    rintro (h | h | h)
    · exact Bool.true_eq_false.mp h
    · omega
    · omega
  rw [arguemnt_check, if_neg (by omega), if_neg (by simp), if_neg h3]
  cases isFile <;> cases canOpenRead <;> simp

/-- Witness for C9 at port 2000: an existing readable file is refused, an
existing unreadable one is not. -/
theorem c9_overwrite_refusal_witness :
    arguemnt_check 4 true true 2000 true true = ArgCheckResult.fileExit ∧
    arguemnt_check 4 true true 2000 true false = ArgCheckResult.ok 2000 := by
  constructor
  · exact (c9_overwrite_refusal 4 true true 2000 true true rfl rfl rfl
      (by norm_num) (by norm_num)).1.mpr ⟨rfl, rfl⟩
  · exact (c9_overwrite_refusal 4 true true 2000 true false rfl rfl rfl
      (by norm_num) (by norm_num)).2 rfl rfl

/-- A wrong magic number makes the server reject the header. -/
theorem is_valid_header_bad_magic (h : List Nat)
    (hmag : from_bytes (h.take 2) ≠ MAGICNO) : is_valid_header h = some false := by
  by_cases hz : h.length = 0
  · rw [is_valid_header, if_pos hz]
  · rw [is_valid_header, if_neg hz, if_pos hmag]

/-- A wrong type byte makes the server reject the header. -/
theorem is_valid_header_bad_type (h : List Nat) (t : Nat)
    (ht : h.get? 2 = some t) (hty : t ≠ REQUEST_TYPE) :
    is_valid_header h = some false := by
  have hlen : 2 < h.length := (List.get?_eq_some.mp ht).1
  have hz : h.length ≠ 0 := by omega
  by_cases hm : from_bytes (h.take 2) = MAGICNO
  · simp only [is_valid_header, if_neg hz, if_neg (not_not_intro hm), ht]
    simp [hty]
  · exact is_valid_header_bad_magic h hm

/-- A wrong magic number makes the client exit before any payload read. -/
theorem validate_header_bad_magic (h : List Nat)
    (hmag : from_bytes (h.take 2) ≠ MAGICNO) :
    validate_header h = ClientHeaderCheck.errExit := by
  by_cases hz : h.length = 0
  · rw [validate_header, if_pos hz]
  · rw [validate_header, if_neg hz, if_pos hmag]

/-- A wrong type byte makes the client exit before any payload read. -/
theorem validate_header_bad_type (h : List Nat) (t : Nat)
    (ht : h.get? 2 = some t) (hty : t ≠ RESPONSE_TYPE) :
    validate_header h = ClientHeaderCheck.errExit := by
  have hlen : 2 < h.length := (List.get?_eq_some.mp ht).1
  have hz : h.length ≠ 0 := by omega
  by_cases hm : from_bytes (h.take 2) = MAGICNO
  · simp only [validate_header, if_neg hz, if_neg (not_not_intro hm), ht]
    simp [hty]
  · exact validate_header_bad_magic h hm

/-- C6: a header with a wrong magic number, or a type byte differing from
the expected message type (1 on the server, 2 on the client), is rejected
before any payload read: the server drops the connection with the
filename-read flag still false, and the client exits before `save_file`. -/
theorem c6_magic_type_rejection (h : List Nat) (t : Nat) (recv : Nat → NetRead)
    (fs : List Nat → Option (List Nat)) :
    (from_bytes (h.take 2) ≠ MAGICNO ∨ (h.get? 2 = some t ∧ t ≠ REQUEST_TYPE) →
      is_valid_header h = some false ∧
      handle_connection (NetRead.bytes h) recv fs = (ConnOutcome.dropped, false)) ∧
    (from_bytes (h.take 2) ≠ MAGICNO ∨ (h.get? 2 = some t ∧ t ≠ RESPONSE_TYPE) →
      validate_header h = ClientHeaderCheck.errExit ∧
      client_after_header (NetRead.bytes h) = ClientOutcome.fatalError) := by
  constructor
  · rintro (hmag | ⟨ht, hty⟩)
    · have hv := is_valid_header_bad_magic h hmag
      exact ⟨hv, by simp [handle_connection, hv]⟩
    · have hv := is_valid_header_bad_type h t ht hty
      exact ⟨hv, by simp [handle_connection, hv]⟩
  · rintro (hmag | ⟨ht, hty⟩)
    · have hv := validate_header_bad_magic h hmag
      exact ⟨hv, by simp [client_after_header, hv]⟩
    · have hv := validate_header_bad_type h t ht hty
      exact ⟨hv, by simp [client_after_header, hv]⟩

/-- Witness for C6: the header `[0, 0, 9]` has magic number 0, so both
sides reject it without touching the payload. -/
theorem c6_magic_type_rejection_witness :
    is_valid_header [0, 0, 9] = some false ∧
    handle_connection (NetRead.bytes [0, 0, 9]) (fun _ => NetRead.bytes [])
      (fun _ => none) = (ConnOutcome.dropped, false) ∧
    validate_header [0, 0, 9] = ClientHeaderCheck.errExit ∧
    client_after_header (NetRead.bytes [0, 0, 9]) = ClientOutcome.fatalError := by
  have h := c6_magic_type_rejection [0, 0, 9] 9 (fun _ => NetRead.bytes []) (fun _ => none)
  have h1 := h.1 (Or.inl (by decide))
  have h2 := h.2 (Or.inl (by decide))
  exact ⟨h1.1, h1.2, h2.1, h2.2⟩

/-- C7: the server asks the peer for one byte more than the declared
filename length (`get_filename` consults `recv` only at that size);
delivery of exactly the declared count succeeds, any other delivered count
(more: trailing garbage; fewer: short read) is malformed, and on a
malformed filename the connection is dropped without a response. -/
theorem c7_filename_probe (h : List Nat) (recv recv' : Nat → NetRead)
    (fb : List Nat) (fs : List Nat → Option (List Nat))
    (hsame : recv (from_bytes (h.drop 3) + 1) = recv' (from_bytes (h.drop 3) + 1))
    (hfb : recv (from_bytes (h.drop 3) + 1) = NetRead.bytes fb) :
    get_filename h recv = get_filename h recv' ∧
    (fb.length = from_bytes (h.drop 3) →
      get_filename h recv = GetFilenameResult.filename (fb.map pychr)) ∧
    (fb.length ≠ from_bytes (h.drop 3) →
      get_filename h recv = GetFilenameResult.malformed ∧
      (is_valid_header h = some true →
        handle_connection (NetRead.bytes h) recv fs = (ConnOutcome.dropped, true))) := by
  refine ⟨?_, ?_, ?_⟩
  · rw [get_filename, get_filename, hsame]
  · intro he
    simp only [get_filename, hfb]
    rw [if_neg (not_not_intro he)]
  · intro hne
    have hgf : get_filename h recv = GetFilenameResult.malformed := by
      simp only [get_filename, hfb]
      rw [if_pos hne]
    exact ⟨hgf, fun hv => by simp [handle_connection, hv, hgf]⟩

/-- Witness for C7: declared length 1 but two bytes delivered — malformed,
connection dropped with no response. -/
theorem c7_filename_probe_witness :
    get_filename [73, 126, 1, 0, 1] (fun _ => NetRead.bytes [97, 98]) =
      GetFilenameResult.malformed ∧
    handle_connection (NetRead.bytes [73, 126, 1, 0, 1])
      (fun _ => NetRead.bytes [97, 98]) (fun _ => none) =
      (ConnOutcome.dropped, true) := by
  have h := (c7_filename_probe [73, 126, 1, 0, 1] (fun _ => NetRead.bytes [97, 98])
    (fun _ => NetRead.bytes [97, 98]) [97, 98] (fun _ => none) rfl rfl).2.2 (by decide)
  exact ⟨h.1, h.2 (by decide)⟩

/-- C8 counterexample: `soc.recv(8)` may deliver fewer than 8 bytes, and a
5-byte short read whose visible fields pass every check (`49 7E 02 01 00`)
is not fatal — the client proceeds to the transfer phase (with DataLen
read from the single byte present), contrary to the claim that every
short read terminates the client. -/
theorem c8_short_read_not_fatal :
    ([73, 126, 2, 1, 0] : List Nat).length < RESPONSE_HEADER_LEN ∧
    validate_header [73, 126, 2, 1, 0] = ClientHeaderCheck.ok ∧
    client_after_header (NetRead.bytes [73, 126, 2, 1, 0]) =
      ClientOutcome.transfer 0 := by
  decide

/-- C8 (amended): the client requests up to 8 bytes for the response
header (the header phase depends on `recv` only at size 8); a timeout, a
read error, a zero-length read, or a failure of the field checks on the
bytes received is fatal with a reported error; but a short read whose
visible fields pass the checks is not detected and the client proceeds to
the transfer phase. -/
theorem c8_header_failures_fatal :
    (∀ recv recv' : Nat → NetRead,
      recv RESPONSE_HEADER_LEN = recv' RESPONSE_HEADER_LEN →
      client_step recv = client_step recv') ∧
    client_after_header NetRead.timeout = ClientOutcome.fatalError ∧
    client_after_header NetRead.ioError = ClientOutcome.fatalError ∧
    (∀ h : List Nat, h.length = 0 →
      client_after_header (NetRead.bytes h) = ClientOutcome.fatalError) ∧
    (∀ h : List Nat, validate_header h = ClientHeaderCheck.errExit →
      client_after_header (NetRead.bytes h) = ClientOutcome.fatalError) := by
  refine ⟨?_, rfl, rfl, ?_, ?_⟩
  · intro recv recv' hsame
    rw [client_step, client_step, hsame]
  · intro h hz
    have hv : validate_header h = ClientHeaderCheck.errExit := by
      rw [validate_header, if_pos hz]
    simp [client_after_header, hv]
  · intro h hv
    simp [client_after_header, hv]

/-- Witness for C8 (amended): a timed-out header read, an empty header and
a wrong-magic full header are each fatal. -/
theorem c8_header_failures_witness :
    client_step (fun _ => NetRead.timeout) = ClientOutcome.fatalError ∧
    client_after_header (NetRead.bytes []) = ClientOutcome.fatalError ∧
    client_after_header (NetRead.bytes [0, 0, 2, 1, 0, 0, 0, 0]) =
      ClientOutcome.fatalError := by
  refine ⟨c8_header_failures_fatal.2.1, c8_header_failures_fatal.2.2.2.1 [] rfl,
    c8_header_failures_fatal.2.2.2.2 [0, 0, 2, 1, 0, 0, 0, 0] (by decide)⟩

/-- UTF-8 encoding is the identity on strings of ASCII code points. -/
theorem utf8Encode_ascii (fn : List Nat) (hascii : ∀ c ∈ fn, c < 128) :
    utf8Encode fn = fn := by
  induction fn with
  | nil => rfl
  | cons a l ih =>
    have ha : a < 128 := hascii a (by simp)
    have hl : utf8Encode l = l := ih (fun c hc => hascii c (by simp [hc]))
    simp only [utf8Encode, List.map_cons, List.flatten_cons] at hl ⊢
    rw [hl, utf8EncodeChar, if_pos ha]
    rfl

/-- Decoding bytes with `chr` yields the code points of the same values. -/
theorem map_pychr (l : List Nat) : l.map pychr = l := by
  induction l with
  | nil => rfl
  | cons a t ih => simp [pychr, ih]

/-- Server request-header validation on an explicit 5-byte header. -/
theorem is_valid_header_quintuple (a b c d e : Nat) :
    is_valid_header [a, b, c, d, e] =
      if from_bytes [a, b] ≠ MAGICNO then some false
      else if c ≠ REQUEST_TYPE then some false
      else if from_bytes [d, e] < MIN_FILENAME_LEN ∨
          MAX_FILENAME_LEN < from_bytes [d, e] then some false
      else some true := by
  rw [is_valid_header, if_neg (by simp)]
  rfl

/-- C2 counterexample: the filename consisting of the single code point
233 (`'é'`) UTF-8-encodes to the two bytes `C3 A9` (declared length 2, in
range), but the server decodes them byte-per-character into the two code
points `[195, 169]` — neither the original string nor its original
length is recovered. -/
theorem c2_nonascii_counterexample :
    1 ≤ (utf8Encode [233]).length ∧ (utf8Encode [233]).length ≤ 1024 ∧
    construct_request [233] = some [73, 126, 1, 0, 2, 195, 169] ∧
    is_valid_header [73, 126, 1, 0, 2] = some true ∧
    get_filename [73, 126, 1, 0, 2] (fun _ => NetRead.bytes [195, 169]) =
      GetFilenameResult.filename [195, 169] ∧
    ([195, 169] : List Nat) ≠ [233] ∧
    ([195, 169] : List Nat).length ≠ ([233] : List Nat).length := by
  decide

/-- C2 (amended): for filenames of 1 to 1024 ASCII code points (exactly
the filenames whose UTF-8 encoding is one byte per character), encoding a
FileRequest and then running server header validation and filename
extraction on it, with the exact declared number of filename bytes
delivered, yields the original filename and its original length. -/
theorem c2_request_roundtrip_ascii (fn : List Nat) (recv : Nat → NetRead)
    (hascii : ∀ c ∈ fn, c < 128) (h1 : 1 ≤ fn.length) (h2 : fn.length ≤ 1024)
    (hrecv : recv (fn.length + 1) = NetRead.bytes fn) :
    ∃ req, construct_request fn = some req ∧
      req.length = REQUEST_HEADER_LEN + fn.length ∧
      is_valid_header (req.take REQUEST_HEADER_LEN) = some true ∧
      from_bytes ((req.take REQUEST_HEADER_LEN).drop 3) = fn.length ∧
      req.drop REQUEST_HEADER_LEN = fn ∧
      get_filename (req.take REQUEST_HEADER_LEN) recv =
        GetFilenameResult.filename fn := by
  have hfit : fn.length < 256 ^ 2 := by norm_num; omega
  have hasc : utf8Encode fn = fn := utf8Encode_ascii fn hascii
  have hm : int_to_bytes 2 MAGICNO = some [73, 126] := by decide
  have hl : int_to_bytes 2 fn.length = some (natToBytesBE 2 fn.length) := by
    rw [int_to_bytes, if_pos hfit]
  have hnb2 : natToBytesBE 2 fn.length =
      [fn.length / 256 % 256, fn.length % 256] := rfl
  have hreq : construct_request fn =
      some ([73, 126, 1, fn.length / 256 % 256, fn.length % 256] ++ fn) := by
    simp [construct_request, REQUEST_TYPE, hasc, hm, hl, hnb2]
  have hde : from_bytes [fn.length / 256 % 256, fn.length % 256] = fn.length := by
    rw [← hnb2]
    exact from_bytes_natToBytesBE 2 _ hfit
  have hhdlen : ([73, 126, 1, fn.length / 256 % 256, fn.length % 256] :
      List Nat).length = 5 := by simp
  have htake : (([73, 126, 1, fn.length / 256 % 256, fn.length % 256] ++ fn) :
      List Nat).take 5 = [73, 126, 1, fn.length / 256 % 256, fn.length % 256] :=
    List.take_left' hhdlen
  have hdrop : (([73, 126, 1, fn.length / 256 % 256, fn.length % 256] ++ fn) :
      List Nat).drop 5 = fn :=
    List.drop_left' hhdlen
  have hdrop3 : from_bytes (([73, 126, 1, fn.length / 256 % 256,
      fn.length % 256] : List Nat).drop 3) = fn.length := hde
  have hvalid : is_valid_header
      [73, 126, 1, fn.length / 256 % 256, fn.length % 256] = some true := by
    rw [is_valid_header_quintuple, if_neg (by decide), if_neg (by decide)]
    rw [hde]
    rw [if_neg (by simp only [MIN_FILENAME_LEN, MAX_FILENAME_LEN]; omega)]
  have hgf : get_filename [73, 126, 1, fn.length / 256 % 256, fn.length % 256]
      recv = GetFilenameResult.filename fn := by
    simp only [get_filename, hdrop3, hrecv]
    rw [if_neg (by simp), map_pychr]
  refine ⟨_, hreq, ?_, ?_, ?_, ?_, ?_⟩
  · rw [List.length_append, hhdlen, REQUEST_HEADER_LEN]
  · show is_valid_header ((([73, 126, 1, fn.length / 256 % 256,
      fn.length % 256] ++ fn) : List Nat).take REQUEST_HEADER_LEN) = some true
    rw [REQUEST_HEADER_LEN, htake, hvalid]
  · show from_bytes (((([73, 126, 1, fn.length / 256 % 256,
      fn.length % 256] ++ fn) : List Nat).take REQUEST_HEADER_LEN).drop 3) = fn.length
    rw [REQUEST_HEADER_LEN, htake, hdrop3]
  · show (([73, 126, 1, fn.length / 256 % 256, fn.length % 256] ++ fn) :
      List Nat).drop REQUEST_HEADER_LEN = fn
    rw [REQUEST_HEADER_LEN, hdrop]
  · show get_filename ((([73, 126, 1, fn.length / 256 % 256,
      fn.length % 256] ++ fn) : List Nat).take REQUEST_HEADER_LEN) recv =
      GetFilenameResult.filename fn
    rw [REQUEST_HEADER_LEN, htake, hgf]

/-- Witness for C2 (amended) at the one-character ASCII filename "a". -/
theorem c2_request_roundtrip_witness :
    ∃ req, construct_request [97] = some req ∧
      req.length = REQUEST_HEADER_LEN + ([97] : List Nat).length ∧
      is_valid_header (req.take REQUEST_HEADER_LEN) = some true ∧
      from_bytes ((req.take REQUEST_HEADER_LEN).drop 3) = ([97] : List Nat).length ∧
      req.drop REQUEST_HEADER_LEN = [97] ∧
      get_filename (req.take REQUEST_HEADER_LEN) (fun _ => NetRead.bytes [97]) =
        GetFilenameResult.filename [97] :=
  c2_request_roundtrip_ascii [97] (fun _ => NetRead.bytes [97])
    (by decide) (by decide) (by decide) rfl

/-- C1 counterexample: a connection whose client sends no request header
within the timeout makes `get_header` call `exit(1)`, which terminates the
whole server process — a following, perfectly valid connection is never
served (the run ends `exited` after one outcome instead of handling both
connections). -/
theorem c1_timeout_kills_server :
    handle_connection NetRead.timeout (fun _ => NetRead.bytes [97])
      (fun _ => some [5]) = (ConnOutcome.processExit, false) ∧
    server_run [(NetRead.timeout, fun _ => NetRead.bytes [97], fun _ => some [5]),
        (NetRead.bytes [73, 126, 1, 0, 1], fun _ => NetRead.bytes [97],
          fun _ => some [5])] =
      ([ConnOutcome.processExit], LoopEnd.exited) := by
  exact ⟨rfl, rfl⟩

/-- C1 (amended): a malformed request — a header failing validation, or a
filename byte-count mismatch — terminates only that connection and the
accept loop continues with the remaining connections; but a read timeout
or per-connection I/O error while reading the header or the filename
calls `exit(1)` and terminates the whole server process. -/
theorem c1_connection_failures (h : List Nat) (recv : Nat → NetRead)
    (fs : List Nat → Option (List Nat))
    (rest : List (NetRead × (Nat → NetRead) × (List Nat → Option (List Nat)))) :
    (is_valid_header h = some false →
      server_run ((NetRead.bytes h, recv, fs) :: rest) =
        (ConnOutcome.dropped :: (server_run rest).1, (server_run rest).2)) ∧
    (is_valid_header h = some true →
      get_filename h recv = GetFilenameResult.malformed →
      server_run ((NetRead.bytes h, recv, fs) :: rest) =
        (ConnOutcome.dropped :: (server_run rest).1, (server_run rest).2)) ∧
    server_run ((NetRead.timeout, recv, fs) :: rest) =
      ([ConnOutcome.processExit], LoopEnd.exited) ∧
    server_run ((NetRead.ioError, recv, fs) :: rest) =
      ([ConnOutcome.processExit], LoopEnd.exited) ∧
    (is_valid_header h = some true →
      get_filename h recv = GetFilenameResult.exited →
      server_run ((NetRead.bytes h, recv, fs) :: rest) =
        ([ConnOutcome.processExit], LoopEnd.exited)) := by
  refine ⟨?_, ?_, rfl, rfl, ?_⟩
  · intro hv
    simp [server_run, handle_connection, hv]
  · intro hv hgf
    simp [server_run, handle_connection, hv, hgf]
  · intro hv hgf
    simp [server_run, handle_connection, hv, hgf]

/-- Witness for C1 (amended): a bad-magic connection is dropped and the
loop runs on to completion; a timed-out connection exits the process. -/
theorem c1_connection_failures_witness :
    server_run [(NetRead.bytes [0, 0, 9], fun _ => NetRead.bytes [97], fun _ => none)] =
      ([ConnOutcome.dropped], LoopEnd.ranOut) ∧
    server_run [(NetRead.timeout, fun _ => NetRead.bytes [97], fun _ => none)] =
      ([ConnOutcome.processExit], LoopEnd.exited) := by
  have h := c1_connection_failures [0, 0, 9] (fun _ => NetRead.bytes [97])
    (fun _ => none) []
  exact ⟨by simpa [server_run] using h.1 (by decide), h.2.2.1⟩

end FileServer
